import Mathlib

/-!
Verification of the glTF-viewer core (ViewerApplication.cpp) against its
specification.  The C++ source is shallowly embedded below: tinygltf document
structures become Lean structures, OpenGL calls become events of an explicit
command trace, machine arithmetic that matters is carried out over ℚ and Nat,
and fallible index lookups return Option/Except.
-/

namespace GltfViewer

/- OpenGL enumeration constants used by the source (numeric values from GL). -/

def GL_ELEMENT_ARRAY_BUFFER : Int := 34963
def GL_LINEAR : Int := 9729
def GL_NEAREST_MIPMAP_NEAREST : Int := 9984
def GL_LINEAR_MIPMAP_NEAREST : Int := 9985
def GL_NEAREST_MIPMAP_LINEAR : Int := 9986
def GL_LINEAR_MIPMAP_LINEAR : Int := 9987
def GL_REPEAT : Int := 10497
def GL_FLOAT : Int := 5126
def GL_TRIANGLES : Int := 4

/- 4x4 matrices over ℚ embed the glm::mat4 values the viewer manipulates. -/

abbrev Mat4 := Matrix (Fin 4) (Fin 4) ℚ

/-- glm::inverse for a 4x4 matrix: the classical adjugate formula
(glm computes it by Cramer cofactors; over a field the results agree). -/
def inv4 (A : Mat4) : Mat4 := A.det⁻¹ • A.adjugate

/- The tinygltf document model, restricted to the fields the viewer reads. -/

structure BufferView where
  buffer : Int
  byteOffset : Nat
  byteLength : Nat
  byteStride : Nat
  target : Int
deriving DecidableEq

structure Accessor where
  bufferView : Int
  byteOffset : Nat
  componentType : Int
  count : Nat
  type : Int
deriving DecidableEq

structure Primitive where
  attributes : List (String × Int)
  indices : Int
  material : Int
  mode : Int
deriving DecidableEq

structure Mesh where
  primitives : List Primitive
deriving DecidableEq

structure Node where
  mesh : Int
  children : List Int
  localMatrix : Mat4
deriving DecidableEq

structure Scene where
  nodes : List Int
deriving DecidableEq

/-- tinygltf's baseColorFactor is a length-4 vector of doubles (default
(1,1,1,1)); the viewer reads components 0..3. -/
structure Color4 where
  r : ℚ
  g : ℚ
  b : ℚ
  a : ℚ
deriving DecidableEq

structure TextureInfo where
  index : Int
deriving DecidableEq

structure PbrMetallicRoughness where
  baseColorTexture : TextureInfo
  baseColorFactor : Color4
deriving DecidableEq

structure Material where
  pbrMetallicRoughness : PbrMetallicRoughness
deriving DecidableEq

structure Sampler where
  minFilter : Int
  magFilter : Int
  wrapS : Int
  wrapT : Int
  wrapR : Int
deriving DecidableEq

structure Texture where
  source : Int
  sampler : Int
deriving DecidableEq

structure Image where
  width : Int
  height : Int
  pixel_type : Int
  image : List Nat
deriving DecidableEq

structure Model where
  buffers : List (List Nat)
  bufferViews : List BufferView
  accessors : List Accessor
  meshes : List Mesh
  nodes : List Node
  scenes : List Scene
  materials : List Material
  textures : List Texture
  images : List Image
  samplers : List Sampler
  defaultScene : Int
deriving DecidableEq

/-- C++ `vec[i]` with an int index: defined exactly when `0 ≤ i < vec.size()`.
An out-of-range access is undefined behaviour, modelled as `none`. -/
def idx? {α : Type} (xs : List α) (i : Int) : Option α :=
  if h : 0 ≤ i ∧ i.toNat < xs.length then some (xs.get ⟨i.toNat, h.2⟩) else none

theorem idx?_nonneg {α : Type} {xs : List α} {i : Int} {a : α}
    (h : idx? xs i = some a) : 0 ≤ i ∧ xs.get? i.toNat = some a := by
  unfold idx? at h
  split at h
  · next hc =>
    refine ⟨hc.1, ?_⟩
    rw [List.get?_eq_get hc.2]
    exact congrArg some (Option.some.inj h)
  · exact absurd h (by simp)

theorem idx?_eq_some_of_get? {α : Type} {xs : List α} {n : Nat} {a : α}
    (h : xs.get? n = some a) : idx? xs (n : Int) = some a := by
  have hlt : n < xs.length := by
    by_contra hge
    rw [List.get?_eq_none.mpr (Nat.le_of_not_lt hge)] at h
    exact Option.noConfusion h
  unfold idx?
  rw [dif_pos ⟨Int.ofNat_nonneg n, by simpa using hlt⟩]
  rw [List.get?_eq_get hlt] at h
  simpa using h

/- ----------------------------------------------------------------- -/
/- ViewerApplication constructor: the user-camera built from lookatArgs. -/

structure Camera where
  eye : ℚ × ℚ × ℚ
  center : ℚ × ℚ × ℚ
  up : ℚ × ℚ × ℚ
deriving DecidableEq

/-- The constructor's camera setup: `if (!lookatArgs.empty())` it reads
`lookatArgs[0]` .. `lookatArgs[8]` unconditionally to build `m_userCamera`.
Result `some none` = no user camera; `some (some c)` = user camera `c`;
`none` = an out-of-range vector read (undefined behaviour). -/
def mkUserCamera (lookatArgs : List ℚ) : Option (Option Camera) :=
  if lookatArgs.isEmpty then some none
  else
    match lookatArgs.get? 0, lookatArgs.get? 1, lookatArgs.get? 2,
        lookatArgs.get? 3, lookatArgs.get? 4, lookatArgs.get? 5,
        lookatArgs.get? 6, lookatArgs.get? 7, lookatArgs.get? 8 with
    | some a0, some a1, some a2, some a3, some a4, some a5,
      some a6, some a7, some a8 =>
        some (some ⟨(a0, a1, a2), (a3, a4, a5), (a6, a7, a8)⟩)
    | _, _, _, _, _, _, _, _, _ => none

/-- **C10.** Whenever `lookatArgs` is non-empty the constructor unconditionally
reads elements 0..8 to build the user camera; all nine reads are in bounds
exactly when the list has at least 9 elements, and every non-empty shorter
list makes an out-of-range read occur. -/
theorem c10_lookat_reads (args : List ℚ) (h : args ≠ []) :
    (9 ≤ args.length →
      mkUserCamera args = some (some ⟨(args.getD 0 0, args.getD 1 0, args.getD 2 0),
        (args.getD 3 0, args.getD 4 0, args.getD 5 0),
        (args.getD 6 0, args.getD 7 0, args.getD 8 0)⟩)) ∧
    (args.length < 9 → mkUserCamera args = none) := by
  have hne : args.isEmpty = false := by
    cases args with
    | nil => exact absurd rfl h
    | cons x xs => rfl
  constructor
  · intro hlen
    have hget : ∀ k : Nat, k < 9 → args.get? k = some (args.getD k 0) := by
      intro k hk
      have hk' : k < args.length := lt_of_lt_of_le hk hlen
      rw [List.getD_eq_get? , List.get?_eq_get hk']
      rfl
    unfold mkUserCamera
    rw [if_neg (by simp [hne])]
    rw [hget 0 (by norm_num), hget 1 (by norm_num), hget 2 (by norm_num),
      hget 3 (by norm_num), hget 4 (by norm_num), hget 5 (by norm_num),
      hget 6 (by norm_num), hget 7 (by norm_num), hget 8 (by norm_num)]
  · intro hlen
    have h8 : args.get? 8 = none := List.get?_eq_none.mpr (by omega)
    unfold mkUserCamera
    rw [if_neg (by simp [hne])]
    cases h0 : args.get? 0 <;> cases h1 : args.get? 1 <;> cases h2 : args.get? 2 <;>
      cases h3 : args.get? 3 <;> cases h4 : args.get? 4 <;> cases h5 : args.get? 5 <;>
      cases h6 : args.get? 6 <;> cases h7 : args.get? 7 <;> rw [h8]

/-- Witness for C10 at the concrete inputs `[1,2,3,4,5,6,7,8,9]` and `[1]`. -/
theorem c10_lookat_reads_witness :
    mkUserCamera [1, 2, 3, 4, 5, 6, 7, 8, 9] =
      some (some ⟨(1, 2, 3), (4, 5, 6), (7, 8, 9)⟩) ∧
    mkUserCamera [1] = none := by
  constructor
  · have := (c10_lookat_reads [1, 2, 3, 4, 5, 6, 7, 8, 9] (by decide)).1 (by decide)
    simpa using this
  · exact (c10_lookat_reads [1] (by decide)).2 (by decide)

/- ----------------------------------------------------------------- -/
/- GPU texture objects: createTextureObjects and the white fallback. -/

/-- The GPU-side state a texture object carries after createTextureObjects
configured it: the uploaded image (index, dimensions, type, pixels as glTexImage2D
receives them), whether glGenerateMipmap ran, and the sampler parameters. -/
structure TexObj where
  source : Int
  width : Int
  height : Int
  pixel_type : Int
  pixels : List ℚ
  mipmaps : Bool
  minFilter : Int
  magFilter : Int
  wrapS : Int
  wrapT : Int
  wrapR : Int
deriving DecidableEq

/-- The four mip-mapped minification filters tested by createTextureObjects. -/
def isMipMapFilter (f : Int) : Bool :=
  f == GL_NEAREST_MIPMAP_NEAREST || f == GL_NEAREST_MIPMAP_LINEAR ||
  f == GL_LINEAR_MIPMAP_NEAREST || f == GL_LINEAR_MIPMAP_LINEAR

/-- `defaultSampler` as initialised at the end of the ViewerApplication
constructor: linear filters, repeat wraps. -/
def defaultSampler : Sampler :=
  ⟨GL_LINEAR, GL_LINEAR, GL_REPEAT, GL_REPEAT, GL_REPEAT⟩

/-- `texture.sampler >= 0 ? model.samplers[texture.sampler] : defaultSampler`. -/
def resolvedSampler (model : Model) (texture : Texture) : Option Sampler :=
  if 0 ≤ texture.sampler then idx? model.samplers texture.sampler
  else some defaultSampler

/-- One iteration of createTextureObjects: bind the fresh object, assert
`texture.source >= 0`, upload `model.images[texture.source]` via glTexImage2D,
generate mipmaps when the resolved sampler's min filter is mip-mapped, and set
the filter/wrap parameters (filters fall back to GL_LINEAR when -1). -/
def makeTextureObject (model : Model) (texture : Texture) : Option TexObj :=
  if texture.source < 0 then none
  else
    match idx? model.images texture.source, resolvedSampler model texture with
    | some image, some sampler =>
        some ⟨texture.source, image.width, image.height, image.pixel_type,
          image.image.map (fun b => (b : ℚ)),
          isMipMapFilter sampler.minFilter,
          (if sampler.minFilter != -1 then sampler.minFilter else GL_LINEAR),
          (if sampler.magFilter != -1 then sampler.magFilter else GL_LINEAR),
          sampler.wrapS, sampler.wrapT, sampler.wrapR⟩
    | _, _ => none

/-- createTextureObjects: `glGenTextures(model.textures.size(), ...)` and one
configuration pass per Texture, in document order. -/
def createTextureObjects (model : Model) : List (Option TexObj) :=
  model.textures.map (makeTextureObject model)

/-- The 2x2 neutral white fallback texture created in run() (GL_RGBA float
data {1,1,1,1}, linear filters, repeat wraps, no mipmaps). -/
def whiteTexture : TexObj :=
  ⟨-1, 2, 2, GL_FLOAT, [1, 1, 1, 1], false,
    GL_LINEAR, GL_LINEAR, GL_REPEAT, GL_REPEAT, GL_REPEAT⟩

/- ----------------------------------------------------------------- -/
/- The GL command trace emitted while drawing. -/

inductive Uniform
  | modelViewMatrix
  | modelViewProjMatrix
  | normalMatrix
  | lightDirection
  | lightIntensity
  | baseColorTexture
  | baseColorFactor
deriving DecidableEq

inductive GLCmd
  | viewport (w h : Int)
  | clear
  | uniformMatrix4fv (u : Uniform) (m : Mat4)
  | uniform3f (u : Uniform) (x y z : ℚ)
  | uniform1i (u : Uniform) (v : Int)
  | uniform4f (u : Uniform) (x y z w : ℚ)
  | activeTexture (unit : Nat)
  | bindTexture (obj : Option TexObj)
  | bindVertexArray (vaoPos : Nat)
  | drawElements (mode : Int) (count : Nat) (componentType : Int)
      (indexByteOffset : Nat)
  | drawArrays (mode : Int) (first : Nat) (count : Nat)
  | undefinedRead
deriving DecidableEq

/- ----------------------------------------------------------------- -/
/- The bindMaterial lambda of run(). -/

/-- The bindMaterial lambda: only acts when `materialIndex >= 0`; with a
base-color texture it binds `textureObjects[texture.source]` on unit 0 and
uploads the material's baseColorFactor; without one it binds the white
texture and uploads the `white` array (1,1,1,1). `GL_TEXTURE0` is texture
unit 0. An in-code out-of-range vector read is marked `undefinedRead`. -/
def bindMaterial (model : Model) (textureObjects : List (Option TexObj))
    (materialIndex : Int) : List GLCmd :=
  if 0 ≤ materialIndex then
    match idx? model.materials materialIndex with
    | none => [.undefinedRead]
    | some material =>
      if 0 ≤ material.pbrMetallicRoughness.baseColorTexture.index then
        match idx? model.textures
            material.pbrMetallicRoughness.baseColorTexture.index with
        | none => [.undefinedRead]
        | some texture =>
          [.activeTexture 0,
           .bindTexture (idx? textureObjects texture.source).join,
           .uniform1i .baseColorTexture 0,
           .uniform4f .baseColorFactor
             material.pbrMetallicRoughness.baseColorFactor.r
             material.pbrMetallicRoughness.baseColorFactor.g
             material.pbrMetallicRoughness.baseColorFactor.b
             material.pbrMetallicRoughness.baseColorFactor.a]
      else
        [.activeTexture 0,
         .bindTexture (some whiteTexture),
         .uniform1i .baseColorTexture 0,
         .uniform4f .baseColorFactor 1 1 1 1]
  else []

/- ----------------------------------------------------------------- -/
/- Claim C2: material fallback behaviour of bindMaterial. -/

/-- A document whose sole material has base-color factor (2,3,4,5) and no
base-color texture. -/
def materialFallbackDoc : Model :=
  ⟨[], [], [], [], [], [], [⟨⟨⟨-1⟩, ⟨2, 3, 4, 5⟩⟩⟩], [], [], [], -1⟩

/-- **C2, counterexample.** For material index "none" bindMaterial emits no
commands at all (it does not bind the white texture), and for a material
without base-color texture it uploads the factor (1,1,1,1) instead of the
material's own factor (2,3,4,5) demanded by the claim. -/
theorem c2_fallback_counterexample :
    bindMaterial materialFallbackDoc [] (-1) = [] ∧
    GLCmd.uniform4f .baseColorFactor 2 3 4 5 ∉
      bindMaterial materialFallbackDoc [] 0 ∧
    GLCmd.uniform4f .baseColorFactor 1 1 1 1 ∈
      bindMaterial materialFallbackDoc [] 0 := by
  refine ⟨by decide, by decide, by decide⟩

/-- **C2, amended.** bindMaterial with a valid material index whose material
lacks a base-color texture binds the white texture to unit 0 and uploads the
constant factor (1,1,1,1), ignoring the material's own factor; with material
index "none" it emits no commands. -/
theorem c2_material_fallback_amended (model : Model)
    (textureObjects : List (Option TexObj)) (materialIndex : Int)
    (material : Material) :
    (materialIndex < 0 → bindMaterial model textureObjects materialIndex = []) ∧
    (0 ≤ materialIndex →
      idx? model.materials materialIndex = some material →
      material.pbrMetallicRoughness.baseColorTexture.index < 0 →
      bindMaterial model textureObjects materialIndex =
        [.activeTexture 0, .bindTexture (some whiteTexture),
         .uniform1i .baseColorTexture 0,
         .uniform4f .baseColorFactor 1 1 1 1]) := by
  constructor
  · intro hneg
    unfold bindMaterial
    rw [if_neg (not_le.mpr hneg)]
  · intro hpos hmat htex
    unfold bindMaterial
    rw [if_pos hpos, hmat]
    simp only
    rw [if_neg (not_le.mpr htex)]

/-- Witness for C2 at the concrete document `materialFallbackDoc`. -/
theorem c2_material_fallback_amended_witness :
    bindMaterial materialFallbackDoc [] (-1) = [] ∧
    bindMaterial materialFallbackDoc [] 0 =
      [.activeTexture 0, .bindTexture (some whiteTexture),
       .uniform1i .baseColorTexture 0,
       .uniform4f .baseColorFactor 1 1 1 1] :=
  ⟨(c2_material_fallback_amended materialFallbackDoc [] (-1)
      ⟨⟨⟨-1⟩, ⟨2, 3, 4, 5⟩⟩⟩).1 (by decide),
   (c2_material_fallback_amended materialFallbackDoc [] 0
      ⟨⟨⟨-1⟩, ⟨2, 3, 4, 5⟩⟩⟩).2 (by decide) (by decide) (by decide)⟩

/- ----------------------------------------------------------------- -/
/- Claim C3: texture objects per Texture, sampler resolution, binding. -/

/-- A document with two Images and three Textures; texture 0 references
image 1, textures 1 and 2 reference image 0; material 0 uses texture 0. -/
def textureSharingDoc : Model :=
  ⟨[], [], [], [], [], [],
   [⟨⟨⟨0⟩, ⟨1, 1, 1, 1⟩⟩⟩],
   [⟨1, -1⟩, ⟨0, -1⟩, ⟨0, -1⟩],
   [⟨4, 4, 5121, [7]⟩, ⟨4, 4, 5121, [9]⟩],
   [], -1⟩

/-- **C3, counterexample.** createTextureObjects creates one GPU texture
object per Texture (three objects for two Images), and bindMaterial for
texture 0 (whose source image is image 1, pixels [9]) binds the object at
list position `texture.source = 1`, which holds image 0's pixels [7] — not
the texture's own source image. -/
theorem c3_texture_objects_counterexample :
    (createTextureObjects textureSharingDoc).length = 3 ∧
    textureSharingDoc.images.length = 2 ∧
    textureSharingDoc.textures.get? 0 = some ⟨1, -1⟩ ∧
    (textureSharingDoc.images.get? 1).map Image.image = some [9] ∧
    bindMaterial textureSharingDoc (createTextureObjects textureSharingDoc) 0 =
      [.activeTexture 0,
       .bindTexture (some ⟨0, 4, 4, 5121, [7], false,
         GL_LINEAR, GL_LINEAR, GL_REPEAT, GL_REPEAT, GL_REPEAT⟩),
       .uniform1i .baseColorTexture 0,
       .uniform4f .baseColorFactor 1 1 1 1] := by
  refine ⟨by decide, by decide, by decide, by decide, by decide⟩

/-- **C3, amended.** createTextureObjects creates exactly one GPU texture
object per Texture (not per Image), the object at position n being built
from texture n's source image; a Texture without Sampler resolves to the
default sampler (linear filters, repeat wraps); mipmaps are generated iff
the resolved sampler's minification filter is one of the four mip-mapped
modes; and for a base-color texture reference, bindMaterial binds the
object at list position `texture.source` of that per-Texture list. -/
theorem c3_texture_objects_amended (model : Model) (n : Nat)
    (texture : Texture) (sampler : Sampler) (obj : TexObj)
    (materialIndex : Int) (material : Material) (texture' : Texture) :
    ((createTextureObjects model).length = model.textures.length) ∧
    (model.textures.get? n = some texture →
      (createTextureObjects model).get? n = some (makeTextureObject model texture)) ∧
    (texture.sampler < 0 → resolvedSampler model texture = some defaultSampler) ∧
    (defaultSampler = ⟨GL_LINEAR, GL_LINEAR, GL_REPEAT, GL_REPEAT, GL_REPEAT⟩) ∧
    (makeTextureObject model texture = some obj →
      resolvedSampler model texture = some sampler →
      (obj.mipmaps = true ↔ isMipMapFilter sampler.minFilter = true)) ∧
    (0 ≤ materialIndex →
      idx? model.materials materialIndex = some material →
      0 ≤ material.pbrMetallicRoughness.baseColorTexture.index →
      idx? model.textures material.pbrMetallicRoughness.baseColorTexture.index
        = some texture' →
      GLCmd.bindTexture ((idx? (createTextureObjects model) texture'.source).join)
        ∈ bindMaterial model (createTextureObjects model) materialIndex) := by
  refine ⟨?_, ?_, ?_, rfl, ?_, ?_⟩
  · exact List.length_map _ _
  · intro hget
    unfold createTextureObjects
    rw [List.get?_map, hget]
    rfl
  · intro hneg
    unfold resolvedSampler
    rw [if_neg (not_le.mpr hneg)]
  · intro hmk hres
    unfold makeTextureObject at hmk
    split at hmk
    · exact absurd hmk (by simp)
    · rw [hres] at hmk
      cases himg : idx? model.images texture.source with
      | none => rw [himg] at hmk; exact absurd hmk (by simp)
      | some image =>
          rw [himg] at hmk
          simp only at hmk
          have : obj.mipmaps = isMipMapFilter sampler.minFilter := by
            cases Option.some.inj hmk
            rfl
          rw [this]
  · intro hpos hmat htexpos htex
    unfold bindMaterial
    rw [if_pos hpos, hmat]
    simp only
    rw [if_pos htexpos, htex]
    simp

/-- Witness for C3 at the concrete document `textureSharingDoc`. -/
theorem c3_texture_objects_amended_witness :
    ((createTextureObjects textureSharingDoc).length
      = textureSharingDoc.textures.length) ∧
    ((createTextureObjects textureSharingDoc).get? 0
      = some (makeTextureObject textureSharingDoc ⟨1, -1⟩)) ∧
    (resolvedSampler textureSharingDoc ⟨1, -1⟩ = some defaultSampler) ∧
    GLCmd.bindTexture ((idx? (createTextureObjects textureSharingDoc) 1).join)
      ∈ bindMaterial textureSharingDoc (createTextureObjects textureSharingDoc) 0 := by
  have h := c3_texture_objects_amended textureSharingDoc 0 ⟨1, -1⟩
    defaultSampler whiteTexture 0 ⟨⟨⟨0⟩, ⟨1, 1, 1, 1⟩⟩⟩ ⟨1, -1⟩
  exact ⟨h.1, h.2.1 (by decide), h.2.2.1 (by decide),
    h.2.2.2.2.2 (by decide) (by decide) (by decide) (by decide)⟩

/- ----------------------------------------------------------------- -/
/- createVertexArrayObjects: one VAO per primitive, ranges per mesh. -/

/-- A `(start index, count)` range into the flat VAO list (struct VaoRange;
GLsizei fields, value-initialised to 0 by vector::resize). -/
structure VaoRange where
  begin : Nat
  count : Nat
deriving DecidableEq

/-- The state glVertexAttribPointer records for one enabled attribute slot. -/
structure AttribBinding where
  slot : Int
  bufferObject : Int
  size : Int
  componentType : Int
  stride : Nat
  byteOffset : Nat
deriving DecidableEq

/-- The state one vertex array object holds after setup: the enabled
attribute bindings (in setup order) and the element-array buffer binding. -/
structure Vao where
  attribs : List AttribBinding
  elementArrayBuffer : Option Int
deriving DecidableEq

inductive VaoError
  | assertTargetFailed
  | outOfRange
deriving DecidableEq

/-- The fixed attribute set {POSITION → 0, NORMAL → 1, TEXCOORD_0 → 2}. -/
def attributeList : List (String × Int) :=
  [("POSITION", 0), ("NORMAL", 1), ("TEXCOORD_0", 2)]

/-- One iteration of the attribute loop: if the primitive defines the
attribute, bind its slot to the accessor's buffer at
`accessor.byteOffset + bufferView.byteOffset` with the accessor's
type/componentType and the bufferView's stride; then (inside the same loop in
the source) if the primitive has an index accessor, `assert` that its
bufferView's target is GL_ELEMENT_ARRAY_BUFFER and bind it as the element
array buffer.  Out-of-range document indices are `outOfRange`; a failed
assert is `assertTargetFailed`. -/
def setupAttribPointer (model : Model) (primitive : Primitive) (vao : Vao)
    (attrib : String × Int) : Except VaoError Vao :=
  match primitive.attributes.lookup attrib.1 with
  | none => pure vao
  | some accessorIdx =>
    match idx? model.accessors accessorIdx with
    | none => throw .outOfRange
    | some accessor =>
      match idx? model.bufferViews accessor.bufferView with
      | none => throw .outOfRange
      | some bufferView =>
        if bufferView.buffer < 0 ∨ model.buffers.length ≤ bufferView.buffer.toNat
        then throw .outOfRange
        else pure (Vao.mk
          (vao.attribs ++ [⟨attrib.2, bufferView.buffer, accessor.type,
            accessor.componentType, bufferView.byteStride,
            accessor.byteOffset + bufferView.byteOffset⟩])
          vao.elementArrayBuffer)

/-- The index-buffer half of the loop body (runs on every iteration when the
primitive is indexed): assert the bufferView's target, then bind its buffer
as the VAO's element-array source. -/
def setupIndexBuffer (model : Model) (primitive : Primitive) (vao : Vao) :
    Except VaoError Vao :=
  if 0 ≤ primitive.indices then
    match idx? model.accessors primitive.indices with
    | none => throw .outOfRange
    | some accessor =>
      match idx? model.bufferViews accessor.bufferView with
      | none => throw .outOfRange
      | some bufferView =>
        if bufferView.target = GL_ELEMENT_ARRAY_BUFFER then
          if bufferView.buffer < 0 ∨ model.buffers.length ≤ bufferView.buffer.toNat
          then throw .outOfRange
          else pure (Vao.mk vao.attribs (some bufferView.buffer))
        else throw .assertTargetFailed
  else pure vao

def setupAttribute (model : Model) (primitive : Primitive) (vao : Vao)
    (attrib : String × Int) : Except VaoError Vao := do
  let vao1 ← setupAttribPointer model primitive vao attrib
  setupIndexBuffer model primitive vao1

/-- Configure one primitive's VAO by folding the attribute loop. -/
def buildPrimitiveVao (model : Model) (primitive : Primitive) :
    Except VaoError Vao :=
  attributeList.foldlM (setupAttribute model primitive) (Vao.mk [] none)

/-- The inner primitive loop of createVertexArrayObjects for one mesh. -/
def meshVaos (model : Model) (mesh : Mesh) : Except VaoError (List Vao) :=
  mesh.primitives.mapM (buildPrimitiveVao model)

/-- createVertexArrayObjects.  The out-parameter `meshIndexToVaoRange` is
first resized to `model.meshes.size()` (value-initialising that many (0,0)
ranges) and each computed per-mesh range is then `push_back`ed after them;
the flat VAO list grows by `mesh.primitives.size()` entries per mesh. -/
def vaoFoldStep (model : Model) (acc : List Vao × List VaoRange)
    (mesh : Mesh) : Except VaoError (List Vao × List VaoRange) := do
  let vaos ← meshVaos model mesh
  pure (acc.1 ++ vaos, acc.2 ++ [⟨acc.1.length, mesh.primitives.length⟩])

def createVertexArrayObjects (model : Model) :
    Except VaoError (List Vao × List VaoRange) :=
  model.meshes.foldlM (vaoFoldStep model)
    ([], List.replicate model.meshes.length ⟨0, 0⟩)

/- ----------------------------------------------------------------- -/
/- Claim C1: the mesh-index-to-VAO-range list. -/

/-- A document with three meshes of primitive counts [2,1,3]; every
primitive is attribute-less and non-indexed. -/
def threeMeshDoc : Model :=
  ⟨[], [], [],
   [⟨[⟨[], -1, -1, GL_TRIANGLES⟩, ⟨[], -1, -1, GL_TRIANGLES⟩]⟩,
    ⟨[⟨[], -1, -1, GL_TRIANGLES⟩]⟩,
    ⟨[⟨[], -1, -1, GL_TRIANGLES⟩, ⟨[], -1, -1, GL_TRIANGLES⟩,
      ⟨[], -1, -1, GL_TRIANGLES⟩]⟩],
   [], [], [], [], [], [], -1⟩

/-- **C1.** For a Document with meshes of primitive counts [2,1,3], the
range list createVertexArrayObjects produces is NOT [(0,2),(2,1),(3,3)]:
the resize-then-push_back sequence leaves one value-initialised (0,0) entry
per mesh at the front, and the entry the renderer reads for mesh 1 via
`meshVaoRangeList[node.mesh]` is (0,0), not the (2,1) the claim requires. -/
theorem c1_vao_range_list_bug :
    (createVertexArrayObjects threeMeshDoc).map Prod.snd =
      .ok [⟨0, 0⟩, ⟨0, 0⟩, ⟨0, 0⟩, ⟨0, 2⟩, ⟨2, 1⟩, ⟨3, 3⟩] ∧
    (createVertexArrayObjects threeMeshDoc).map (fun r => r.2.get? 1) =
      .ok (some ⟨0, 0⟩) ∧
    (⟨0, 0⟩ : VaoRange) ≠ ⟨2, 1⟩ := by
  refine ⟨by rfl, by rfl, by decide⟩

/- ----------------------------------------------------------------- -/
/- The drawScene lambda of run() and its recursive drawNode. -/

/-- Modelled from the spec: `getLocalToWorldMatrix` is declared in
utils/gltf.hpp, which is not part of this repository snapshot (only its
caller is).  Per the spec (§4.2 step 3), visiting a Node with an inherited
parent transform computes `localToWorld = parentToWorld * node.localTransform`,
the node's local transform being its TRS composition or its raw matrix
(mutually exclusive per node); `Node.localMatrix` carries that resolved
local transform. -/
def getLocalToWorldMatrix (node : Node) (parentMatrix : Mat4) : Mat4 :=
  parentMatrix * node.localMatrix

/-- The non-indexed fallback draw: `(*begin(primitive.attributes)).second`
(undefined behaviour on an empty attribute map) names the accessor whose
element count feeds glDrawArrays. -/
def firstAttributeDraw (model : Model) (primitive : Primitive) : List GLCmd :=
  match primitive.attributes.head? with
  | none => [GLCmd.undefinedRead]
  | some kv =>
    match idx? model.accessors kv.2 with
    | none => [GLCmd.undefinedRead]
    | some accessor => [GLCmd.drawArrays primitive.mode 0 accessor.count]

/-- The draw issued for one primitive: glDrawElements with the index
accessor's count/component type at `accessor.byteOffset + bufferView.byteOffset`
when an index accessor exists, glDrawArrays from vertex 0 otherwise. -/
def primitiveDrawCmd (model : Model) (primitive : Primitive) : List GLCmd :=
  if 0 ≤ primitive.indices then
    match idx? model.accessors primitive.indices with
    | none => [GLCmd.undefinedRead]
    | some accessor =>
      match idx? model.bufferViews accessor.bufferView with
      | none => [GLCmd.undefinedRead]
      | some bufferView =>
        [GLCmd.drawElements primitive.mode accessor.count
          accessor.componentType (accessor.byteOffset + bufferView.byteOffset)]
  else firstAttributeDraw model primitive

/-- The body of the primitive loop in drawNode: bindMaterial, bind the VAO at
`vaoRange.begin + primIdx` in the flat VAO list, issue the draw. -/
def primitiveCmds (model : Model) (textureObjects : List (Option TexObj))
    (vaoBase : Nat) (primIdx : Nat) (primitive : Primitive) : List GLCmd :=
  bindMaterial model textureObjects primitive.material ++
  [GLCmd.bindVertexArray (vaoBase + primIdx)] ++
  primitiveDrawCmd model primitive

/-- The `if (node.mesh >= 0)` block of drawNode: upload the three matrix
uniforms once, then loop over `model.meshes[node.mesh]`'s primitives using
the VAO range `meshVaoRangeList[node.mesh]`. -/
def visitCmds (model : Model) (view proj : Mat4)
    (textureObjects : List (Option TexObj)) (ranges : List VaoRange)
    (node : Node) (nodeModelMatrix : Mat4) : List GLCmd :=
  if 0 ≤ node.mesh then
    [GLCmd.uniformMatrix4fv .modelViewMatrix (view * nodeModelMatrix),
     GLCmd.uniformMatrix4fv .modelViewProjMatrix (proj * (view * nodeModelMatrix)),
     GLCmd.uniformMatrix4fv .normalMatrix
       (inv4 (view * nodeModelMatrix)).transpose] ++
    (match idx? model.meshes node.mesh, idx? ranges node.mesh with
     | some mesh, some vaoRange =>
        (mesh.primitives.enum.map
          (fun p => primitiveCmds model textureObjects vaoRange.begin p.1 p.2)).flatten
     | _, _ => [GLCmd.undefinedRead])
  else []

/-- The recursive drawNode lambda: look up the node, compute its
local-to-world matrix, draw its mesh if any, recurse into the children with
the new parent matrix.  The C++ recursion is bounded by the document's
node-forest depth; here a fuel argument bounds it (drawScene passes
`model.nodes.length`, enough for any forest). -/
def drawNode (model : Model) (view proj : Mat4)
    (textureObjects : List (Option TexObj)) (ranges : List VaoRange) :
    Nat → Int → Mat4 → List GLCmd
  | 0, _, _ => []
  | fuel + 1, nodeIdx, parentMatrix =>
    match idx? model.nodes nodeIdx with
    | none => [GLCmd.undefinedRead]
    | some node =>
      let nodeModelMatrix := getLocalToWorldMatrix node parentMatrix
      visitCmds model view proj textureObjects ranges node nodeModelMatrix ++
      (node.children.map
        (fun childIdx => drawNode model view proj textureObjects ranges
          fuel childIdx nodeModelMatrix)).flatten

/-- `vec3(viewMatrix * vec4(lightDirection, 0))`. -/
def transformDir (m : Mat4) (v : ℚ × ℚ × ℚ) : ℚ × ℚ × ℚ :=
  let w := m.mulVec ![v.1, v.2.1, v.2.2, 0]
  (w 0, w 1, w 2)

/-- The drawScene lambda: viewport, clear, per-frame light uniforms, then the
recursive traversal of the default scene's roots from the identity transform
(nothing drawn when the document has no default scene).  glm::normalize on
the view-space light direction rescales by a positive scalar that is not
representable over ℚ; the unnormalized direction is recorded instead, and no
claim concerns the light value. -/
def drawScene (model : Model) (view proj : Mat4)
    (textureObjects : List (Option TexObj)) (ranges : List VaoRange)
    (lightDirection lightIntensity : ℚ × ℚ × ℚ)
    (isLightComingFromCamera : Bool) (w h : Int) : List GLCmd :=
  [GLCmd.viewport w h, GLCmd.clear] ++
  (if isLightComingFromCamera then
    [GLCmd.uniform3f .lightDirection 0 0 1]
  else
    [GLCmd.uniform3f .lightDirection (transformDir view lightDirection).1
      (transformDir view lightDirection).2.1
      (transformDir view lightDirection).2.2]) ++
  [GLCmd.uniform3f .lightIntensity lightIntensity.1 lightIntensity.2.1
    lightIntensity.2.2] ++
  (if 0 ≤ model.defaultScene then
    match idx? model.scenes model.defaultScene with
    | none => [GLCmd.undefinedRead]
    | some scene =>
        (scene.nodes.map
          (fun nodeId => drawNode model view proj textureObjects ranges
            model.nodes.length nodeId 1)).flatten
  else [])

/- Trace classifiers and basic lemmas about them. -/

def isMatrixUpload : GLCmd → Bool
  | .uniformMatrix4fv _ _ => true
  | _ => false

def isDrawCmd : GLCmd → Bool
  | .drawElements _ _ _ _ => true
  | .drawArrays _ _ _ => true
  | _ => false

theorem filter_flatten_eq_nil {α : Type} {p : α → Bool} {ls : List (List α)}
    (h : ∀ l ∈ ls, l.filter p = []) : ls.flatten.filter p = [] := by
  induction ls with
  | nil => rfl
  | cons x xs ih =>
      rw [List.flatten_cons, List.filter_append, h x (by simp),
        ih (fun l hl => h l (by simp [hl]))]
      rfl

theorem bindMaterial_no_matrix (model : Model)
    (textureObjects : List (Option TexObj)) (materialIndex : Int) :
    (bindMaterial model textureObjects materialIndex).filter isMatrixUpload
      = [] := by
  unfold bindMaterial
  repeat' split
  all_goals rfl

theorem bindMaterial_no_draw (model : Model)
    (textureObjects : List (Option TexObj)) (materialIndex : Int) :
    (bindMaterial model textureObjects materialIndex).filter isDrawCmd
      = [] := by
  unfold bindMaterial
  repeat' split
  all_goals rfl

theorem primitiveCmds_no_matrix (model : Model)
    (textureObjects : List (Option TexObj)) (vaoBase primIdx : Nat)
    (primitive : Primitive) :
    (primitiveCmds model textureObjects vaoBase primIdx primitive).filter
      isMatrixUpload = [] := by
  unfold primitiveCmds
  rw [List.filter_append, List.filter_append, bindMaterial_no_matrix]
  unfold primitiveDrawCmd firstAttributeDraw
  repeat' split
  all_goals rfl

/- ----------------------------------------------------------------- -/
/- Claim C4: the three matrix uniforms, once per node-mesh visit. -/

/-- **C4.** Visiting a mesh-bearing node uploads exactly the three matrices
`modelView = view * localToWorld`, `modelViewProjection = proj * modelView`
and `normalMatrix = transpose(inverse(modelView))`, once, before the
primitive loop; the per-primitive commands of that visit upload no matrix
uniform at all, so all primitives of the mesh share the three uniforms. -/
theorem c4_matrix_uniforms_once (model : Model) (view proj : Mat4)
    (textureObjects : List (Option TexObj)) (ranges : List VaoRange)
    (node : Node) (nodeModelMatrix : Mat4) (mesh : Mesh) (vaoRange : VaoRange)
    (hmesh : 0 ≤ node.mesh)
    (hm : idx? model.meshes node.mesh = some mesh)
    (hr : idx? ranges node.mesh = some vaoRange) :
    (visitCmds model view proj textureObjects ranges node
        nodeModelMatrix).filter isMatrixUpload =
      [GLCmd.uniformMatrix4fv .modelViewMatrix (view * nodeModelMatrix),
       GLCmd.uniformMatrix4fv .modelViewProjMatrix
         (proj * (view * nodeModelMatrix)),
       GLCmd.uniformMatrix4fv .normalMatrix
         (inv4 (view * nodeModelMatrix)).transpose] ∧
    ((mesh.primitives.enum.map
        (fun p => primitiveCmds model textureObjects vaoRange.begin
          p.1 p.2)).flatten).filter isMatrixUpload = [] := by
  have hflat : ((mesh.primitives.enum.map
      (fun p => primitiveCmds model textureObjects vaoRange.begin
        p.1 p.2)).flatten).filter isMatrixUpload = [] := by
    apply filter_flatten_eq_nil
    intro l hl
    rcases List.mem_map.mp hl with ⟨p, _, rfl⟩
    exact primitiveCmds_no_matrix model textureObjects vaoRange.begin p.1 p.2
  refine ⟨?_, hflat⟩
  unfold visitCmds
  rw [if_pos hmesh, hm, hr]
  simp only [List.filter_append]
  rw [hflat]
  rfl

/-- A document with one node bearing a one-primitive mesh. -/
def singleMeshDoc : Model :=
  ⟨[], [], [], [⟨[⟨[], -1, -1, GL_TRIANGLES⟩]⟩], [⟨0, [], 1⟩],
   [], [], [], [], [], -1⟩

/-- Witness for C4 at the concrete document `singleMeshDoc`. -/
theorem c4_matrix_uniforms_once_witness :
    (visitCmds singleMeshDoc 1 1 [] [⟨0, 1⟩] ⟨0, [], 1⟩ 1).filter
        isMatrixUpload =
      [GLCmd.uniformMatrix4fv .modelViewMatrix ((1 : Mat4) * 1),
       GLCmd.uniformMatrix4fv .modelViewProjMatrix
         ((1 : Mat4) * ((1 : Mat4) * 1)),
       GLCmd.uniformMatrix4fv .normalMatrix
         (inv4 ((1 : Mat4) * 1)).transpose] ∧
    (((⟨[⟨[], -1, -1, GL_TRIANGLES⟩]⟩ : Mesh).primitives.enum.map
        (fun p => primitiveCmds singleMeshDoc [] (0 : Nat)
          p.1 p.2)).flatten).filter isMatrixUpload = [] :=
  c4_matrix_uniforms_once singleMeshDoc 1 1 [] [⟨0, 1⟩] ⟨0, [], 1⟩ 1
    ⟨[⟨[], -1, -1, GL_TRIANGLES⟩]⟩ ⟨0, 1⟩ (by decide) rfl rfl

/- ----------------------------------------------------------------- -/
/- Claim C5: transform composition along a node chain. -/

/-- A three-node chain: node 0 (local T1) → node 1 (local T2) → node 2
(local T3, bearing the sole mesh); the default scene's root is node 0. -/
def chainModel (T1 T2 T3 : Mat4) : Model :=
  ⟨[], [], [⟨0, 0, GL_FLOAT, 3, 3⟩],
   [⟨[⟨[("POSITION", 0)], -1, -1, GL_TRIANGLES⟩]⟩],
   [⟨-1, [1], T1⟩, ⟨-1, [2], T2⟩, ⟨0, [], T3⟩],
   [⟨[0]⟩], [], [], [], [], 0⟩

/-- **C5.** The traversal passes `localToWorld = parent * local` down the
chain starting from the identity at the roots, so the leaf of a
T1 → T2 → T3 chain is drawn with modelView `view * (T1 * T2 * T3)`: the
recursively accumulated transform equals the direct matrix product. -/
theorem c5_transform_chain (T1 T2 T3 view proj : Mat4)
    (ld li : ℚ × ℚ × ℚ) (flag : Bool) (w h : Int) :
    (drawScene (chainModel T1 T2 T3) view proj [] [⟨0, 1⟩] ld li
        flag w h).filter isMatrixUpload =
      [GLCmd.uniformMatrix4fv .modelViewMatrix (view * (T1 * T2 * T3)),
       GLCmd.uniformMatrix4fv .modelViewProjMatrix
         (proj * (view * (T1 * T2 * T3))),
       GLCmd.uniformMatrix4fv .normalMatrix
         (inv4 (view * (T1 * T2 * T3))).transpose] := by
  cases flag with
  | false =>
      have e : (drawScene (chainModel T1 T2 T3) view proj [] [⟨0, 1⟩] ld li
          false w h).filter isMatrixUpload =
        [GLCmd.uniformMatrix4fv .modelViewMatrix (view * (1 * T1 * T2 * T3)),
         GLCmd.uniformMatrix4fv .modelViewProjMatrix
           (proj * (view * (1 * T1 * T2 * T3))),
         GLCmd.uniformMatrix4fv .normalMatrix
           (inv4 (view * (1 * T1 * T2 * T3))).transpose] := rfl
      rw [e, one_mul]
  | true =>
      have e : (drawScene (chainModel T1 T2 T3) view proj [] [⟨0, 1⟩] ld li
          true w h).filter isMatrixUpload =
        [GLCmd.uniformMatrix4fv .modelViewMatrix (view * (1 * T1 * T2 * T3)),
         GLCmd.uniformMatrix4fv .modelViewProjMatrix
           (proj * (view * (1 * T1 * T2 * T3))),
         GLCmd.uniformMatrix4fv .normalMatrix
           (inv4 (view * (1 * T1 * T2 * T3))).transpose] := rfl
      rw [e, one_mul]

/- ----------------------------------------------------------------- -/
/- Claim C6: exactly one draw call per primitive. -/

theorem bindVertexArray_filter_isDrawCmd (n : Nat) :
    ([GLCmd.bindVertexArray n]).filter isDrawCmd = [] := rfl

/-- **C6.** For every primitive: with an index accessor, the primitive's
commands contain exactly one draw — an indexed draw with the accessor's
count and component type, the primitive's topology, and byte offset
`accessor.byteOffset + bufferView.byteOffset`; without one, exactly one
non-indexed draw from vertex 0 whose count is the first attribute's
accessor count. -/
theorem c6_one_draw_per_primitive (model : Model)
    (textureObjects : List (Option TexObj)) (vaoBase primIdx : Nat)
    (primitive : Primitive) (accessor bufferView0accessor : Accessor)
    (bufferView : BufferView) (kv : String × Int) :
    (0 ≤ primitive.indices →
      idx? model.accessors primitive.indices = some accessor →
      idx? model.bufferViews accessor.bufferView = some bufferView →
      (primitiveCmds model textureObjects vaoBase primIdx primitive).filter
          isDrawCmd =
        [GLCmd.drawElements primitive.mode accessor.count
          accessor.componentType
          (accessor.byteOffset + bufferView.byteOffset)]) ∧
    (primitive.indices < 0 →
      primitive.attributes.head? = some kv →
      idx? model.accessors kv.2 = some bufferView0accessor →
      (primitiveCmds model textureObjects vaoBase primIdx primitive).filter
          isDrawCmd =
        [GLCmd.drawArrays primitive.mode 0 bufferView0accessor.count]) := by
  constructor
  · intro hpos ha hb
    unfold primitiveCmds
    rw [List.filter_append, List.filter_append, bindMaterial_no_draw,
      bindVertexArray_filter_isDrawCmd]
    unfold primitiveDrawCmd
    rw [if_pos hpos]
    simp only [ha, hb]
    rfl
  · intro hneg hhead ha
    unfold primitiveCmds
    rw [List.filter_append, List.filter_append, bindMaterial_no_draw,
      bindVertexArray_filter_isDrawCmd]
    unfold primitiveDrawCmd
    rw [if_neg (not_le.mpr hneg)]
    unfold firstAttributeDraw
    simp only [hhead, ha]
    rfl

/-- A document with an index accessor (accessor 0, 12 elements, component
type 5123, byte offset 4, over bufferView 0 at byte offset 8) and a
POSITION accessor (accessor 1, 9 elements). -/
def indexedDrawDoc : Model :=
  ⟨[[]], [⟨0, 8, 0, 0, GL_ELEMENT_ARRAY_BUFFER⟩],
   [⟨0, 4, 5123, 12, 1⟩, ⟨0, 0, GL_FLOAT, 9, 3⟩],
   [], [], [], [], [], [], [], -1⟩

/-- Witness for C6: the indexed primitive issues one glDrawElements with
count 12, type 5123, offset 4+8; the non-indexed one issues one
glDrawArrays with the POSITION accessor's count 9. -/
theorem c6_one_draw_per_primitive_witness :
    (primitiveCmds indexedDrawDoc [] 0 0
        ⟨[("POSITION", 1)], 0, -1, GL_TRIANGLES⟩).filter isDrawCmd =
      [GLCmd.drawElements GL_TRIANGLES 12 5123 (4 + 8)] ∧
    (primitiveCmds indexedDrawDoc [] 0 0
        ⟨[("POSITION", 1)], -1, -1, GL_TRIANGLES⟩).filter isDrawCmd =
      [GLCmd.drawArrays GL_TRIANGLES 0 9] :=
  ⟨(c6_one_draw_per_primitive indexedDrawDoc [] 0 0
      ⟨[("POSITION", 1)], 0, -1, GL_TRIANGLES⟩ ⟨0, 4, 5123, 12, 1⟩
      ⟨0, 0, GL_FLOAT, 9, 3⟩ ⟨0, 8, 0, 0, GL_ELEMENT_ARRAY_BUFFER⟩
      ("POSITION", 1)).1 (by decide) rfl rfl,
   (c6_one_draw_per_primitive indexedDrawDoc [] 0 0
      ⟨[("POSITION", 1)], -1, -1, GL_TRIANGLES⟩ ⟨0, 4, 5123, 12, 1⟩
      ⟨0, 0, GL_FLOAT, 9, 3⟩ ⟨0, 8, 0, 0, GL_ELEMENT_ARRAY_BUFFER⟩
      ("POSITION", 1)).2 (by decide) rfl rfl⟩

/- ----------------------------------------------------------------- -/
/- Claim C8: no default scene ⇒ no draws, frame = clear color. -/

/-- An interpretation of a GL command trace as a framebuffer: glClear paints
every pixel with the clear color, draw commands repaint through an arbitrary
rasterisation function, every other command leaves pixels unchanged. -/
def rasterize (clearColor : ℚ × ℚ × ℚ)
    (paint : GLCmd → (Int → Int → ℚ × ℚ × ℚ) → (Int → Int → ℚ × ℚ × ℚ))
    (cmds : List GLCmd) (initial : Int → Int → ℚ × ℚ × ℚ) :
    Int → Int → ℚ × ℚ × ℚ :=
  cmds.foldl
    (fun framebuffer c =>
      if c = GLCmd.clear then fun _ _ => clearColor
      else if isDrawCmd c then paint c framebuffer else framebuffer)
    initial

/-- **C8.** With no default scene, drawScene issues no draw commands and is
total (it still clears); consequently, for every rasterisation of draw
commands, the rendered frame is exactly the clear color everywhere. -/
theorem c8_no_scene_clear_only (model : Model) (view proj : Mat4)
    (textureObjects : List (Option TexObj)) (ranges : List VaoRange)
    (ld li : ℚ × ℚ × ℚ) (flag : Bool) (w h : Int)
    (hns : model.defaultScene < 0) :
    (drawScene model view proj textureObjects ranges ld li flag w h).filter
        isDrawCmd = [] ∧
    ∀ (clearColor : ℚ × ℚ × ℚ)
      (paint : GLCmd → (Int → Int → ℚ × ℚ × ℚ) → (Int → Int → ℚ × ℚ × ℚ))
      (initial : Int → Int → ℚ × ℚ × ℚ),
      rasterize clearColor paint
        (drawScene model view proj textureObjects ranges ld li flag w h)
        initial = fun _ _ => clearColor := by
  constructor
  · unfold drawScene
    rw [if_neg (not_le.mpr hns)]
    cases flag <;> rfl
  · intro clearColor paint initial
    unfold rasterize drawScene
    rw [if_neg (not_le.mpr hns)]
    cases flag <;> rfl

/-- A document with nodes and meshes but no default scene. -/
def noSceneDoc : Model :=
  ⟨[], [], [], [⟨[⟨[], -1, -1, GL_TRIANGLES⟩]⟩], [⟨0, [], 1⟩],
   [⟨[0]⟩], [], [], [], [], -1⟩

/-- Witness for C8 at the concrete document `noSceneDoc`. -/
theorem c8_no_scene_clear_only_witness :
    (drawScene noSceneDoc 1 1 [] [] (1, 1, 1) (1, 1, 1) false 4 4).filter
        isDrawCmd = [] ∧
    ∀ (clearColor : ℚ × ℚ × ℚ)
      (paint : GLCmd → (Int → Int → ℚ × ℚ × ℚ) → (Int → Int → ℚ × ℚ × ℚ))
      (initial : Int → Int → ℚ × ℚ × ℚ),
      rasterize clearColor paint
        (drawScene noSceneDoc 1 1 [] [] (1, 1, 1) (1, 1, 1) false 4 4)
        initial = fun _ _ => clearColor :=
  c8_no_scene_clear_only noSceneDoc 1 1 [] [] (1, 1, 1) (1, 1, 1) false 4 4
    (by decide)

/- ----------------------------------------------------------------- -/
/- Claim C7: the off-screen-to-PNG branch of run(). -/

/-- An RGB pixel (the output buffer holds 3 channels per pixel). -/
abbrev Pix := ℚ × ℚ × ℚ

inductive AppEvent
  | renderOffscreen (cmds : List GLCmd)
  | writePng (rows : List (List Pix))
  | pollEvents
  | swapBuffers
deriving DecidableEq

structure AppResult where
  events : List AppEvent
  exitCode : Int
deriving DecidableEq

def isRenderEvent : AppEvent → Bool
  | .renderOffscreen _ => true
  | _ => false

/-- Modelled from the spec: `flipImageYAxis` lives in utils/images.hpp, which
is not part of this repository snapshot (only its caller is).  Per the spec
(§6), the written image is vertically flipped relative to the GPU's native
bottom-up pixel row order — row i swaps with row height-1-i, i.e. the list
of rows is reversed. -/
def flipImageYAxis (rows : List (List Pix)) : List (List Pix) :=
  rows.reverse

/-- The `if (!m_OutputPath.empty())` branch of run(), after the GPU resources
have been created.  `renderFrame` stands for the external renderToImage
collaborator (utils/images.hpp, not in this snapshot, modelled from the
spec): it performs one off-screen frame render of the given drawScene
command trace and yields the pixel rows in the GPU's native bottom-up
order.  The branch renders exactly once, flips the rows, writes the PNG and
returns exit status 0; the interactive render loop taken on an empty output
path is a different branch, not modelled here (`none`). -/
def run (model : Model) (view proj : Mat4)
    (textureObjects : List (Option TexObj)) (ranges : List VaoRange)
    (ld li : ℚ × ℚ × ℚ) (flag : Bool) (w h : Int) (outputPath : String)
    (renderFrame : List GLCmd → List (List Pix)) : Option AppResult :=
  if outputPath.isEmpty then none
  else
    some ⟨[AppEvent.renderOffscreen
             (drawScene model view proj textureObjects ranges ld li flag w h),
           AppEvent.writePng (flipImageYAxis (renderFrame
             (drawScene model view proj textureObjects ranges ld li flag w h)))],
          0⟩

/-- **C7.** With a non-empty output path, run() performs exactly one frame
render (and never polls input), writes the vertically flipped pixel rows —
so the file's first row is the GPU's last, i.e. the top of the scene — and
returns exit status 0. -/
theorem c7_offscreen_single_render (model : Model) (view proj : Mat4)
    (textureObjects : List (Option TexObj)) (ranges : List VaoRange)
    (ld li : ℚ × ℚ × ℚ) (flag : Bool) (w h : Int) (outputPath : String)
    (renderFrame : List GLCmd → List (List Pix)) (cmds : List GLCmd)
    (hpath : outputPath.isEmpty = false)
    (hcmds : cmds = drawScene model view proj textureObjects ranges
      ld li flag w h) :
    run model view proj textureObjects ranges ld li flag w h outputPath
        renderFrame =
      some ⟨[AppEvent.renderOffscreen cmds,
             AppEvent.writePng ((renderFrame cmds).reverse)], 0⟩ ∧
    List.countP isRenderEvent
      [AppEvent.renderOffscreen cmds,
       AppEvent.writePng ((renderFrame cmds).reverse)] = 1 ∧
    AppEvent.pollEvents ∉
      [AppEvent.renderOffscreen cmds,
       AppEvent.writePng ((renderFrame cmds).reverse)] ∧
    ((renderFrame cmds).reverse).head? = (renderFrame cmds).getLast? := by
  subst hcmds
  refine ⟨?_, rfl, by simp, ?_⟩
  · unfold run
    rw [hpath]
    rfl
  · exact List.head?_reverse _

/-- A document for the C7 witness: empty scene list, no default scene. -/
def offscreenDoc : Model :=
  ⟨[], [], [], [], [], [], [], [], [], [], -1⟩

/-- Witness for C7 at the path "out.png" and a two-row rendered frame. -/
theorem c7_offscreen_single_render_witness :
    run offscreenDoc 1 1 [] [] (1, 1, 1) (1, 1, 1) false 4 2 "out.png"
        (fun _ => [[(1, 2, 3)], [(4, 5, 6)]]) =
      some ⟨[AppEvent.renderOffscreen
               (drawScene offscreenDoc 1 1 [] [] (1, 1, 1) (1, 1, 1) false 4 2),
             AppEvent.writePng [[(4, 5, 6)], [(1, 2, 3)]]], 0⟩ ∧
    AppEvent.pollEvents ∉
      [AppEvent.renderOffscreen
         (drawScene offscreenDoc 1 1 [] [] (1, 1, 1) (1, 1, 1) false 4 2),
       AppEvent.writePng [[(4, 5, 6)], [(1, 2, 3)]]] ∧
    ([[(4, 5, 6)], [(1, 2, 3)]] : List (List Pix)).head? =
      ([[(1, 2, 3)], [(4, 5, 6)]] : List (List Pix)).getLast? := by
  have h := c7_offscreen_single_render offscreenDoc 1 1 [] [] (1, 1, 1)
    (1, 1, 1) false 4 2 "out.png" (fun _ => [[(1, 2, 3)], [(4, 5, 6)]])
    (drawScene offscreenDoc 1 1 [] [] (1, 1, 1) (1, 1, 1) false 4 2)
    (by decide) rfl
  exact ⟨h.1, h.2.2.1, h.2.2.2⟩

/- ----------------------------------------------------------------- -/
/- Claim C9: well-formedness, the target assertion, bind vs. draw time. -/

/-- All document lookups startsing from an accessor index succeed: the
accessor exists, its bufferView exists, and the bufferView's buffer index is
a valid position of the buffer-object list. -/
def lookupChainOk (model : Model) (accessorIdx : Int) : Bool :=
  match idx? model.accessors accessorIdx with
  | none => false
  | some accessor =>
    match idx? model.bufferViews accessor.bufferView with
    | none => false
    | some bufferView =>
      decide (0 ≤ bufferView.buffer) &&
      decide (bufferView.buffer.toNat < model.buffers.length)

/-- Document integrity for one primitive, exactly the lookups
createVertexArrayObjects performs: each of the fixed attributes it finds,
and the index accessor when present, resolve fully. -/
def wfPrimitive (model : Model) (p : Primitive) : Bool :=
  (attributeList.all (fun attrib =>
    match p.attributes.lookup attrib.1 with
    | none => true
    | some accessorIdx => lookupChainOk model accessorIdx)) &&
  (if 0 ≤ p.indices then lookupChainOk model p.indices else true)

def wfDocGeometry (model : Model) : Bool :=
  model.meshes.all (fun mesh => mesh.primitives.all (wfPrimitive model))

/-- The asserted property: an indexed primitive's index bufferView carries
the GL_ELEMENT_ARRAY_BUFFER usage target (vacuously true when a lookup
fails; well-formedness covers those). -/
def indexTargetOk (model : Model) (p : Primitive) : Bool :=
  if 0 ≤ p.indices then
    match idx? model.accessors p.indices with
    | none => true
    | some accessor =>
      match idx? model.bufferViews accessor.bufferView with
      | none => true
      | some bufferView => decide (bufferView.target = GL_ELEMENT_ARRAY_BUFFER)
  else true

def allTargetsOk (model : Model) : Bool :=
  model.meshes.all (fun mesh => mesh.primitives.all (indexTargetOk model))

theorem setupAttribPointer_ok (model : Model) (p : Primitive)
    (attrib : String × Int)
    (h : (match p.attributes.lookup attrib.1 with
          | none => true
          | some accessorIdx => lookupChainOk model accessorIdx) = true)
    (vao : Vao) : ∃ v, setupAttribPointer model p vao attrib = .ok v := by
  unfold setupAttribPointer
  cases hlk : p.attributes.lookup attrib.1 with
  | none => exact ⟨vao, rfl⟩
  | some accessorIdx =>
      rw [hlk] at h
      unfold lookupChainOk at h
      simp only at h ⊢
      cases ha : idx? model.accessors accessorIdx with
      | none => rw [ha] at h; simp at h
      | some accessor =>
          rw [ha] at h
          simp only at h ⊢
          cases hb : idx? model.bufferViews accessor.bufferView with
          | none => rw [hb] at h; simp at h
          | some bufferView =>
              rw [hb] at h
              simp only at h ⊢
              have h1 := (Bool.and_eq_true _ _).mp h
              have hge : 0 ≤ bufferView.buffer := of_decide_eq_true h1.1
              have hlt : bufferView.buffer.toNat < model.buffers.length :=
                of_decide_eq_true h1.2
              refine ⟨Vao.mk
                (vao.attribs ++ [⟨attrib.2, bufferView.buffer, accessor.type,
                  accessor.componentType, bufferView.byteStride,
                  accessor.byteOffset + bufferView.byteOffset⟩])
                vao.elementArrayBuffer, ?_⟩
              rw [if_neg (not_or.mpr ⟨not_lt.mpr hge, not_le.mpr hlt⟩)]
              rfl

theorem setupIndexBuffer_ok (model : Model) (p : Primitive)
    (hidx : (if 0 ≤ p.indices then lookupChainOk model p.indices else true)
      = true)
    (htarget : indexTargetOk model p = true) (vao : Vao) :
    ∃ v, setupIndexBuffer model p vao = .ok v := by
  unfold setupIndexBuffer
  unfold indexTargetOk at htarget
  by_cases hp : 0 ≤ p.indices
  · rw [if_pos hp]
    rw [if_pos hp] at hidx htarget
    unfold lookupChainOk at hidx
    cases ha : idx? model.accessors p.indices with
    | none => rw [ha] at hidx; simp at hidx
    | some accessor =>
        rw [ha] at hidx htarget
        simp only at hidx htarget ⊢
        cases hb : idx? model.bufferViews accessor.bufferView with
        | none => rw [hb] at hidx; simp at hidx
        | some bufferView =>
            rw [hb] at hidx htarget
            simp only at hidx htarget ⊢
            have h1 := (Bool.and_eq_true _ _).mp hidx
            have hge : 0 ≤ bufferView.buffer := of_decide_eq_true h1.1
            have hlt : bufferView.buffer.toNat < model.buffers.length :=
              of_decide_eq_true h1.2
            refine ⟨Vao.mk vao.attribs (some bufferView.buffer), ?_⟩
            rw [if_pos (of_decide_eq_true htarget),
              if_neg (not_or.mpr ⟨not_lt.mpr hge, not_le.mpr hlt⟩)]
            rfl
  · rw [if_neg hp]
    exact ⟨vao, rfl⟩

theorem setupIndexBuffer_err (model : Model) (p : Primitive)
    (htarget : indexTargetOk model p = false) (vao : Vao) :
    setupIndexBuffer model p vao = .error .assertTargetFailed := by
  unfold setupIndexBuffer
  unfold indexTargetOk at htarget
  by_cases hp : 0 ≤ p.indices
  · rw [if_pos hp]
    rw [if_pos hp] at htarget
    cases ha : idx? model.accessors p.indices with
    | none => rw [ha] at htarget; simp at htarget
    | some accessor =>
        rw [ha] at htarget
        simp only at htarget ⊢
        cases hb : idx? model.bufferViews accessor.bufferView with
        | none => rw [hb] at htarget; simp at htarget
        | some bufferView =>
            rw [hb] at htarget
            simp only at htarget ⊢
            rw [if_neg (of_decide_eq_false htarget)]
            rfl
  · rw [if_neg hp] at htarget
    simp at htarget

theorem setupAttribute_ok (model : Model) (p : Primitive)
    (attrib : String × Int)
    (hattr : (match p.attributes.lookup attrib.1 with
          | none => true
          | some accessorIdx => lookupChainOk model accessorIdx) = true)
    (hidx : (if 0 ≤ p.indices then lookupChainOk model p.indices else true)
      = true)
    (htarget : indexTargetOk model p = true) (vao : Vao) :
    ∃ v, setupAttribute model p vao attrib = .ok v := by
  obtain ⟨v1, h1⟩ := setupAttribPointer_ok model p attrib hattr vao
  obtain ⟨v2, h2⟩ := setupIndexBuffer_ok model p hidx htarget v1
  refine ⟨v2, ?_⟩
  unfold setupAttribute
  rw [h1]
  exact h2

theorem setupAttribute_err (model : Model) (p : Primitive)
    (attrib : String × Int)
    (hattr : (match p.attributes.lookup attrib.1 with
          | none => true
          | some accessorIdx => lookupChainOk model accessorIdx) = true)
    (htarget : indexTargetOk model p = false) (vao : Vao) :
    setupAttribute model p vao attrib = .error .assertTargetFailed := by
  obtain ⟨v1, h1⟩ := setupAttribPointer_ok model p attrib hattr vao
  unfold setupAttribute
  rw [h1]
  exact setupIndexBuffer_err model p htarget v1

theorem foldlM_ok_of_all {α β : Type} {f : β → α → Except VaoError β}
    {l : List α} (h : ∀ (b : β) (a : α), a ∈ l → ∃ v, f b a = .ok v) :
    ∀ init : β, ∃ r, l.foldlM f init = .ok r := by
  induction l with
  | nil => exact fun init => ⟨init, rfl⟩
  | cons x xs ih =>
      intro init
      obtain ⟨v, hv⟩ := h init x (List.mem_cons_self x xs)
      obtain ⟨r, hr⟩ := ih (fun b a ha => h b a (List.mem_cons_of_mem _ ha)) v
      refine ⟨r, ?_⟩
      rw [List.foldlM_cons, hv]
      exact hr

theorem buildPrimitiveVao_ok (model : Model) (p : Primitive)
    (hwf : wfPrimitive model p = true)
    (htarget : indexTargetOk model p = true) :
    ∃ v, buildPrimitiveVao model p = .ok v := by
  have hsplit := (Bool.and_eq_true _ _).mp hwf
  have hattrs := List.all_eq_true.mp hsplit.1
  exact foldlM_ok_of_all
    (fun vao attrib ha =>
      setupAttribute_ok model p attrib (hattrs attrib ha) hsplit.2 htarget vao)
    (Vao.mk [] none)

theorem buildPrimitiveVao_err (model : Model) (p : Primitive)
    (hwf : wfPrimitive model p = true)
    (htarget : indexTargetOk model p = false) :
    buildPrimitiveVao model p = .error .assertTargetFailed := by
  have hsplit := (Bool.and_eq_true _ _).mp hwf
  have hattrs := List.all_eq_true.mp hsplit.1
  unfold buildPrimitiveVao attributeList
  rw [List.foldlM_cons,
    setupAttribute_err model p ("POSITION", 0)
      (hattrs ("POSITION", 0) (by unfold attributeList; simp)) htarget
      (Vao.mk [] none)]
  rfl

theorem mapM_ok_of_all {α β : Type} {g : α → Except VaoError β} {l : List α}
    (h : ∀ a ∈ l, ∃ v, g a = .ok v) : ∃ vs, l.mapM g = .ok vs := by
  induction l with
  | nil => exact ⟨[], rfl⟩
  | cons x xs ih =>
      obtain ⟨v, hv⟩ := h x (List.mem_cons_self x xs)
      obtain ⟨vs, hvs⟩ := ih (fun a ha => h a (List.mem_cons_of_mem _ ha))
      refine ⟨v :: vs, ?_⟩
      rw [List.mapM_cons, hv]
      show (xs.mapM g >>= fun ys => pure (v :: ys)) = _
      rw [hvs]
      rfl

theorem mapM_err_of_not_all {α β : Type} {g : α → Except VaoError β}
    {C : α → Bool} {l : List α}
    (hterm : ∀ a ∈ l, (C a = true → ∃ v, g a = .ok v) ∧
      (C a = false → g a = .error .assertTargetFailed))
    (hex : l.all C = false) : l.mapM g = .error .assertTargetFailed := by
  induction l with
  | nil => cases hex
  | cons x xs ih =>
      rw [List.all_cons] at hex
      cases hc : C x with
      | false =>
          rw [List.mapM_cons,
            (hterm x (List.mem_cons_self x xs)).2 hc]
          rfl
      | true =>
          have hxs : xs.all C = false := by
            rw [hc] at hex
            simpa using hex
          obtain ⟨v, hv⟩ := (hterm x (List.mem_cons_self x xs)).1 hc
          rw [List.mapM_cons, hv]
          show (xs.mapM g >>= fun ys => pure (v :: ys))
              = Except.error VaoError.assertTargetFailed
          rw [ih (fun a ha => hterm a (List.mem_cons_of_mem _ ha)) hxs]
          rfl

theorem meshVaos_ok (model : Model) (mesh : Mesh)
    (hwf : ∀ p ∈ mesh.primitives, wfPrimitive model p = true)
    (htargets : mesh.primitives.all (indexTargetOk model) = true) :
    ∃ vs, meshVaos model mesh = .ok vs :=
  mapM_ok_of_all (fun p hp =>
    buildPrimitiveVao_ok model p (hwf p hp)
      (List.all_eq_true.mp htargets p hp))

theorem meshVaos_err (model : Model) (mesh : Mesh)
    (hwf : ∀ p ∈ mesh.primitives, wfPrimitive model p = true)
    (htargets : mesh.primitives.all (indexTargetOk model) = false) :
    meshVaos model mesh = .error .assertTargetFailed :=
  mapM_err_of_not_all
    (fun p hp =>
      ⟨fun hc => buildPrimitiveVao_ok model p (hwf p hp) hc,
       fun hc => buildPrimitiveVao_err model p (hwf p hp) hc⟩)
    htargets

theorem vaoFoldStep_ok (model : Model) (acc : List Vao × List VaoRange)
    (mesh : Mesh) (h : ∃ vs, meshVaos model mesh = .ok vs) :
    ∃ r, vaoFoldStep model acc mesh = .ok r := by
  obtain ⟨vs, hv⟩ := h
  refine ⟨(acc.1 ++ vs, acc.2 ++ [⟨acc.1.length, mesh.primitives.length⟩]), ?_⟩
  unfold vaoFoldStep
  rw [hv]
  rfl

theorem vaoFoldStep_err (model : Model) (acc : List Vao × List VaoRange)
    (mesh : Mesh) (h : meshVaos model mesh = .error .assertTargetFailed) :
    vaoFoldStep model acc mesh = .error .assertTargetFailed := by
  unfold vaoFoldStep
  rw [h]
  rfl

theorem foldlM_err_of_not_all {α β : Type} {f : β → α → Except VaoError β}
    {C : α → Bool} {l : List α}
    (hterm : ∀ (b : β) (a : α), a ∈ l → (C a = true → ∃ v, f b a = .ok v) ∧
      (C a = false → f b a = .error .assertTargetFailed))
    (hex : l.all C = false) :
    ∀ init : β, l.foldlM f init = .error .assertTargetFailed := by
  induction l with
  | nil => cases hex
  | cons x xs ih =>
      rw [List.all_cons] at hex
      intro init
      cases hc : C x with
      | false =>
          rw [List.foldlM_cons,
            (hterm init x (List.mem_cons_self x xs)).2 hc]
          rfl
      | true =>
          have hxs : xs.all C = false := by
            rw [hc] at hex
            simpa using hex
          obtain ⟨v, hv⟩ := (hterm init x (List.mem_cons_self x xs)).1 hc
          rw [List.foldlM_cons, hv]
          exact ih (fun b a ha => hterm b a (List.mem_cons_of_mem _ ha)) hxs v

theorem createVertexArrayObjects_ok (model : Model)
    (hwf : wfDocGeometry model = true)
    (htargets : allTargetsOk model = true) :
    ∃ r, createVertexArrayObjects model = .ok r := by
  have hm := List.all_eq_true.mp hwf
  have ht := List.all_eq_true.mp htargets
  exact foldlM_ok_of_all
    (fun acc mesh hmem =>
      vaoFoldStep_ok model acc mesh
        (meshVaos_ok model mesh
          (fun p hp => List.all_eq_true.mp (hm mesh hmem) p hp)
          (ht mesh hmem)))
    ([], List.replicate model.meshes.length ⟨0, 0⟩)

theorem createVertexArrayObjects_err (model : Model)
    (hwf : wfDocGeometry model = true)
    (htargets : allTargetsOk model = false) :
    createVertexArrayObjects model = .error .assertTargetFailed := by
  have hm := List.all_eq_true.mp hwf
  exact foldlM_err_of_not_all
    (fun acc mesh hmem =>
      ⟨fun hc => vaoFoldStep_ok model acc mesh
          (meshVaos_ok model mesh
            (fun p hp => List.all_eq_true.mp (hm mesh hmem) p hp) hc),
       fun hc => vaoFoldStep_err model acc mesh
          (meshVaos_err model mesh
            (fun p hp => List.all_eq_true.mp (hm mesh hmem) p hp) hc)⟩)
    htargets
    ([], List.replicate model.meshes.length ⟨0, 0⟩)

/- Draw-time independence from BufferView usage targets. -/

/-- Two bufferViews that agree on everything drawNode can read (the target
is never read at draw time). -/
def sameExceptTarget (a b : BufferView) : Prop :=
  a.buffer = b.buffer ∧ a.byteOffset = b.byteOffset ∧
  a.byteLength = b.byteLength ∧ a.byteStride = b.byteStride

/-- The model with its bufferView list replaced. -/
def withBufferViews (model : Model) (bvs : List BufferView) : Model :=
  ⟨model.buffers, bvs, model.accessors, model.meshes, model.nodes,
   model.scenes, model.materials, model.textures, model.images,
   model.samplers, model.defaultScene⟩

theorem withBufferViews_accessors (model : Model) (bvs : List BufferView) :
    (withBufferViews model bvs).accessors = model.accessors := rfl

theorem withBufferViews_bufferViews (model : Model) (bvs : List BufferView) :
    (withBufferViews model bvs).bufferViews = bvs := rfl

theorem withBufferViews_nodes (model : Model) (bvs : List BufferView) :
    (withBufferViews model bvs).nodes = model.nodes := rfl

theorem withBufferViews_meshes (model : Model) (bvs : List BufferView) :
    (withBufferViews model bvs).meshes = model.meshes := rfl

theorem withBufferViews_scenes (model : Model) (bvs : List BufferView) :
    (withBufferViews model bvs).scenes = model.scenes := rfl

theorem withBufferViews_defaultScene (model : Model) (bvs : List BufferView) :
    (withBufferViews model bvs).defaultScene = model.defaultScene := rfl

theorem idx?_eq_ite_get? {α : Type} (xs : List α) (i : Int) :
    idx? xs i = if 0 ≤ i then xs.get? i.toNat else none := by
  unfold idx?
  split
  · next hc => rw [if_pos hc.1, List.get?_eq_get hc.2]
  · next hc =>
      by_cases h0 : 0 ≤ i
      · rw [if_pos h0]
        have hnl : ¬ i.toNat < xs.length := fun hlt => hc ⟨h0, hlt⟩
        rw [List.get?_eq_none.mpr (Nat.le_of_not_lt hnl)]
      · rw [if_neg h0]

theorem forall2_get? {α β : Type} {R : α → β → Prop} {l : List α}
    {l' : List β} (h : List.Forall₂ R l l') : ∀ n : Nat,
    (l.get? n = none ∧ l'.get? n = none) ∨
    (∃ a b, l.get? n = some a ∧ l'.get? n = some b ∧ R a b) := by
  induction h with
  | nil => exact fun n => Or.inl ⟨rfl, rfl⟩
  | cons hr _ ih =>
      intro n
      cases n with
      | zero => exact Or.inr ⟨_, _, rfl, rfl, hr⟩
      | succ m => exact ih m

theorem forall2_idx? {α β : Type} {R : α → β → Prop} {l : List α}
    {l' : List β} (h : List.Forall₂ R l l') (i : Int) :
    (idx? l i = none ∧ idx? l' i = none) ∨
    (∃ a b, idx? l i = some a ∧ idx? l' i = some b ∧ R a b) := by
  rw [idx?_eq_ite_get?, idx?_eq_ite_get?]
  by_cases h0 : 0 ≤ i
  · rw [if_pos h0, if_pos h0]
    exact forall2_get? h i.toNat
  · rw [if_neg h0, if_neg h0]
    exact Or.inl ⟨rfl, rfl⟩

theorem primitiveDrawCmd_target_indep (model : Model)
    (bvs : List BufferView)
    (hf : List.Forall₂ sameExceptTarget model.bufferViews bvs)
    (p : Primitive) :
    primitiveDrawCmd (withBufferViews model bvs) p
      = primitiveDrawCmd model p := by
  unfold primitiveDrawCmd
  rw [withBufferViews_accessors, withBufferViews_bufferViews]
  by_cases hp : 0 ≤ p.indices
  · rw [if_pos hp, if_pos hp]
    cases ha : idx? model.accessors p.indices with
    | none => rfl
    | some accessor =>
        simp only
        rcases forall2_idx? hf accessor.bufferView with
          ⟨h1, h2⟩ | ⟨a, b, h1, h2, hR⟩
        · rw [h1, h2]
        · rw [h1, h2]
          simp only [hR.2.1]
  · rw [if_neg hp, if_neg hp]
    rfl

theorem primitiveCmds_target_indep (model : Model) (bvs : List BufferView)
    (hf : List.Forall₂ sameExceptTarget model.bufferViews bvs)
    (textureObjects : List (Option TexObj)) (vaoBase primIdx : Nat)
    (p : Primitive) :
    primitiveCmds (withBufferViews model bvs) textureObjects vaoBase primIdx p
      = primitiveCmds model textureObjects vaoBase primIdx p := by
  unfold primitiveCmds
  rw [primitiveDrawCmd_target_indep model bvs hf p]
  rfl

theorem visitCmds_target_indep (model : Model) (bvs : List BufferView)
    (hf : List.Forall₂ sameExceptTarget model.bufferViews bvs)
    (view proj : Mat4) (textureObjects : List (Option TexObj))
    (ranges : List VaoRange) (node : Node) (nodeModelMatrix : Mat4) :
    visitCmds (withBufferViews model bvs) view proj textureObjects ranges
        node nodeModelMatrix
      = visitCmds model view proj textureObjects ranges node
        nodeModelMatrix := by
  unfold visitCmds
  rw [withBufferViews_meshes]
  by_cases hm : 0 ≤ node.mesh
  · rw [if_pos hm, if_pos hm]
    cases idx? model.meshes node.mesh with
    | none => rfl
    | some mesh =>
        cases idx? ranges node.mesh with
        | none => rfl
        | some vaoRange =>
            simp only
            have : (fun p : Nat × Primitive =>
                primitiveCmds (withBufferViews model bvs) textureObjects
                  vaoRange.begin p.1 p.2) =
                (fun p : Nat × Primitive =>
                primitiveCmds model textureObjects vaoRange.begin p.1 p.2) :=
              funext fun p =>
                primitiveCmds_target_indep model bvs hf textureObjects
                  vaoRange.begin p.1 p.2
            rw [this]
  · rw [if_neg hm, if_neg hm]

theorem drawNode_target_indep (model : Model) (bvs : List BufferView)
    (hf : List.Forall₂ sameExceptTarget model.bufferViews bvs)
    (view proj : Mat4) (textureObjects : List (Option TexObj))
    (ranges : List VaoRange) :
    ∀ (fuel : Nat) (nodeIdx : Int) (parentMatrix : Mat4),
    drawNode (withBufferViews model bvs) view proj textureObjects ranges
        fuel nodeIdx parentMatrix
      = drawNode model view proj textureObjects ranges fuel nodeIdx
        parentMatrix := by
  intro fuel
  induction fuel with
  | zero => intro nodeIdx parentMatrix; rfl
  | succ fuel ih =>
      intro nodeIdx parentMatrix
      show drawNode _ view proj textureObjects ranges (fuel + 1) nodeIdx
          parentMatrix = _
      unfold drawNode
      rw [withBufferViews_nodes]
      cases idx? model.nodes nodeIdx with
      | none => rfl
      | some node =>
          simp only
          rw [visitCmds_target_indep model bvs hf]
          have : (fun childIdx : Int =>
              drawNode (withBufferViews model bvs) view proj textureObjects
                ranges fuel childIdx (getLocalToWorldMatrix node parentMatrix)) =
              (fun childIdx : Int =>
              drawNode model view proj textureObjects ranges fuel childIdx
                (getLocalToWorldMatrix node parentMatrix)) :=
            funext fun childIdx => ih childIdx _
          rw [this]

theorem drawScene_target_indep (model : Model) (bvs : List BufferView)
    (hf : List.Forall₂ sameExceptTarget model.bufferViews bvs)
    (view proj : Mat4) (textureObjects : List (Option TexObj))
    (ranges : List VaoRange) (ld li : ℚ × ℚ × ℚ) (flag : Bool) (w h : Int) :
    drawScene (withBufferViews model bvs) view proj textureObjects ranges
        ld li flag w h
      = drawScene model view proj textureObjects ranges ld li flag w h := by
  unfold drawScene
  rw [withBufferViews_scenes, withBufferViews_defaultScene,
    withBufferViews_nodes]
  by_cases hd : 0 ≤ model.defaultScene
  · rw [if_pos hd, if_pos hd]
    cases idx? model.scenes model.defaultScene with
    | none => rfl
    | some scene =>
        simp only
        have : (fun nodeId : Int =>
            drawNode (withBufferViews model bvs) view proj textureObjects
              ranges model.nodes.length nodeId 1) =
            (fun nodeId : Int =>
            drawNode model view proj textureObjects ranges
              model.nodes.length nodeId 1) :=
          funext fun nodeId =>
            drawNode_target_indep model bvs hf view proj textureObjects
              ranges model.nodes.length nodeId 1
        rw [this]
  · rw [if_neg hd, if_neg hd]

/-- **C9.** On a well-formed document, a primitive with an index accessor
whose bufferView target is not GL_ELEMENT_ARRAY_BUFFER is rejected inside
createVertexArrayObjects by the target assertion; when every index
bufferView carries that target the assertion never fails and binding
succeeds; and draw-time execution never reads the target: the drawScene
trace is unchanged under any retargeting of the bufferViews. -/
theorem c9_index_target_assertion (model : Model) (bvs : List BufferView)
    (view proj : Mat4) (textureObjects : List (Option TexObj))
    (ranges : List VaoRange) (ld li : ℚ × ℚ × ℚ) (flag : Bool) (w h : Int)
    (hwf : wfDocGeometry model = true) :
    (allTargetsOk model = true → ∃ r, createVertexArrayObjects model = .ok r) ∧
    (allTargetsOk model = false →
      createVertexArrayObjects model = .error .assertTargetFailed) ∧
    (List.Forall₂ sameExceptTarget model.bufferViews bvs →
      drawScene (withBufferViews model bvs) view proj textureObjects ranges
          ld li flag w h
        = drawScene model view proj textureObjects ranges ld li flag w h) :=
  ⟨fun ht => createVertexArrayObjects_ok model hwf ht,
   fun ht => createVertexArrayObjects_err model hwf ht,
   fun hf => drawScene_target_indep model bvs hf view proj textureObjects
     ranges ld li flag w h⟩

/-- A well-formed document whose one indexed primitive's bufferView has the
element-array target. -/
def targetOkDoc : Model :=
  ⟨[[]], [⟨0, 8, 0, 0, GL_ELEMENT_ARRAY_BUFFER⟩],
   [⟨0, 4, 5123, 12, 1⟩, ⟨0, 0, GL_FLOAT, 9, 3⟩],
   [⟨[⟨[("POSITION", 1)], 0, -1, GL_TRIANGLES⟩]⟩],
   [], [], [], [], [], [], -1⟩

/-- The same document with the bufferView's target cleared to 0. -/
def targetBadDoc : Model :=
  ⟨[[]], [⟨0, 8, 0, 0, 0⟩],
   [⟨0, 4, 5123, 12, 1⟩, ⟨0, 0, GL_FLOAT, 9, 3⟩],
   [⟨[⟨[("POSITION", 1)], 0, -1, GL_TRIANGLES⟩]⟩],
   [], [], [], [], [], [], -1⟩

/-- Witness for C9: binding succeeds on the good document, fails with the
target assertion on the retargeted one, and the drawScene trace ignores the
retargeting. -/
theorem c9_index_target_assertion_witness :
    (∃ r, createVertexArrayObjects targetOkDoc = .ok r) ∧
    createVertexArrayObjects targetBadDoc = .error .assertTargetFailed ∧
    drawScene (withBufferViews targetOkDoc [⟨0, 8, 0, 0, 0⟩]) 1 1 [] []
        (1, 1, 1) (1, 1, 1) false 4 4
      = drawScene targetOkDoc 1 1 [] [] (1, 1, 1) (1, 1, 1) false 4 4 := by
  refine ⟨(c9_index_target_assertion targetOkDoc [⟨0, 8, 0, 0, 0⟩] 1 1 [] []
      (1, 1, 1) (1, 1, 1) false 4 4 (by decide)).1 (by decide),
    (c9_index_target_assertion targetBadDoc [] 1 1 [] []
      (1, 1, 1) (1, 1, 1) false 4 4 (by decide)).2.1 (by decide),
    (c9_index_target_assertion targetOkDoc [⟨0, 8, 0, 0, 0⟩] 1 1 [] []
      (1, 1, 1) (1, 1, 1) false 4 4 (by decide)).2.2 ?_⟩
  exact List.Forall₂.cons ⟨rfl, rfl, rfl, rfl⟩ List.Forall₂.nil

end GltfViewer
